import Mathlib

/-!
Shallow embedding of src/src/transaction_manager.rs (TransactionManager).

The network collaborators (get_transaction_count, estimate_gas,
send_transaction, PendingTransaction::confirmations) are modelled as an
oracle environment giving, for each attempt index, the result each RPC call
would return on that attempt.  U256 values are natural numbers below 2^256;
the checked arithmetic of the source (checked_mul / checked_div /
unwrap_or_default) and the panicking arithmetic of the uint crate
(num_transactions + attempts - 2, which aborts on overflow or underflow)
are modelled explicitly.  Every run also produces a trace of observable
events: nonce queries, send_transaction calls (with the nonce and gas of the
submitted request) and backoff sleeps (in seconds), so that claims about
the number of submission attempts, the nonce used, the gas used and the
backoff delays can be stated.
-/

namespace TxManager

/-- Constant MAX_RETRIES of transaction_manager.rs (line 8). -/
def MAX_RETRIES : Nat := 2

/-- Constant RETRY_DELAY of transaction_manager.rs (line 9), in seconds. -/
def RETRY_DELAY_SECS : Nat := 5

/-- Modulus of the 256-bit unsigned integer type U256. -/
def U256_MOD : Nat := 2 ^ 256

/-- U256::checked_mul: none exactly when the mathematical product does not
fit in 256 bits. -/
def checked_mul (a b : Nat) : Option Nat :=
  if a * b < U256_MOD then some (a * b) else none

/-- U256::checked_div: none exactly when the divisor is zero; otherwise the
truncated quotient. -/
def checked_div (a b : Nat) : Option Nat :=
  if b = 0 then none else some (a / b)

/-- U256 addition, which panics (none) on overflow past 2^256. -/
def u256_add (a b : Nat) : Option Nat :=
  if a + b < U256_MOD then some (a + b) else none

/-- U256 subtraction, which panics (none) on underflow below zero. -/
def u256_sub (a b : Nat) : Option Nat :=
  if b ≤ a then some (a - b) else none

/-- Lines 88-92: estimate.checked_mul(110).unwrap_or_default()
.checked_div(100).unwrap_or_default(). -/
def increased_gas (estimate_gas : Nat) : Nat :=
  (checked_div ((checked_mul estimate_gas 110).getD 0) 100).getD 0

/-- Line 42: new_nonce = num_transactions + attempts - 2 in U256 arithmetic;
none models the panic on overflow of the addition or underflow of the
subtraction. -/
def nonce_calc (num_transactions attempts : Nat) : Option Nat :=
  (u256_add num_transactions attempts).bind (fun s => u256_sub s 2)

/-- Line 72: RETRY_DELAY * (attempts + 1), in seconds. -/
def retry_backoff (attempts : Nat) : Nat :=
  RETRY_DELAY_SECS * (attempts + 1)

/-- The fields of ethers TransactionRequest that handle_transaction and
try_send_transaction mutate: nonce (line 51) and gas (line 97).  All other
fields are carried along unchanged and are irrelevant to the claims. -/
structure TransactionRequest where
  nonce : Option Nat := none
  gas : Option Nat := none
  deriving DecidableEq

/-- The fields of ethers TransactionReceipt that the source reads
(line 119): block number and block hash.  TransactionReceipt::default()
has every optional field None. -/
structure Receipt where
  block_number : Option Nat := none
  block_hash : Option Nat := none
  deriving DecidableEq

/-- TransactionReceipt::default(), substituted by unwrap_or_default at
line 115. -/
def defaultReceipt : Receipt := {}

/-- List-level substring test: true exactly when pat occurs contiguously
inside s. -/
def containsSub (s pat : List Char) : Bool :=
  match s with
  | [] => pat.isEmpty
  | _ :: t => pat.isPrefixOf s || containsSub t pat

/-- Line 59: e.to_string().contains("already known").  Errors are modelled
by their display strings, which is the only structure the source
inspects. -/
def errIndicatesAlreadyKnown (e : String) : Bool :=
  containsSub e.data "already known".data

/-- Oracle for the network calls made inside one try_send_transaction call:
the result of estimate_gas (line 87), of send_transaction (line 102), and
of PendingTransaction::confirmations (lines 112-114, where ok none means
the pending transaction was dropped and no receipt exists). -/
structure SendEnv where
  estimate : Except String Nat
  send : Except String Unit
  confirm : Except String (Option Receipt)

/-- Oracle for one whole loop iteration of handle_transaction: the result
of get_transaction_count (lines 38-41) and the oracle for the
try_send_transaction call. -/
structure AttemptEnv where
  txCount : Except String Nat
  sendEnv : SendEnv

/-- Observable events of a run: a nonce query returning a count, a
send_transaction call with the nonce and gas fields of the submitted
request, and a backoff sleep of a number of seconds. -/
inductive Ev where
  | query (count : Nat)
  | send (nonce : Option Nat) (gas : Nat)
  | sleep (secs : Nat)
  deriving DecidableEq

/-- Result of handle_transaction: ok, an error report, or an abort of the
process by a U256 arithmetic panic. -/
inductive HtOutcome where
  | ok
  | err (e : String)
  | panicked
  deriving DecidableEq

/-- Lines 112-115: pending_tx.confirmations(n).await?.unwrap_or_default().
The question mark propagates a confirmation-wait error; a successful wait
with no receipt is replaced by the default receipt. -/
def confirmed_receipt (c : Except String (Option Receipt)) :
    Except String Receipt :=
  match c with
  | Except.error e => Except.error e
  | Except.ok r => Except.ok (r.getD defaultReceipt)

/-- Lines 86-129, try_send_transaction: estimate gas (propagating a failure
with the question mark), inflate it, set it on a clone of the request, call
send_transaction, and on acceptance wait for confirmations.  The trace
records the send_transaction call with the submitted nonce and gas. -/
def try_send_transaction (env : SendEnv) (transaction : TransactionRequest) :
    Except String Unit × List Ev :=
  match env.estimate with
  | Except.error e => (Except.error e, [])
  | Except.ok estimate_gas =>
    let ig := increased_gas estimate_gas
    let transaction2 : TransactionRequest := { transaction with gas := some ig }
    match env.send with
    | Except.error e => (Except.error e, [Ev.send transaction2.nonce ig])
    | Except.ok _ =>
      match confirmed_receipt env.confirm with
      | Except.error e => (Except.error e, [Ev.send transaction2.nonce ig])
      | Except.ok _receipt => (Except.ok (), [Ev.send transaction2.nonce ig])

/-- Result of lines 37-54: the request a loop iteration will submit.  With
the adjust_nonce flag set, get_transaction_count is queried (its failure
propagated by the question mark) and the nonce is rewritten to
num_transactions + attempts - 2, whose U256 arithmetic can panic. -/
inductive Resolved where
  | err (e : String)
  | panicked (evs : List Ev)
  | ok (transaction : TransactionRequest) (evs : List Ev)

/-- Lines 37-54: choose the request for this iteration.  adjust_nonce false
leaves the caller's request untouched (a clone of the original each
iteration, since the outer binding is shadowed, not mutated). -/
def resolve_tx (a : AttemptEnv) (transaction : TransactionRequest)
    (attempts : Nat) (adjust_nonce : Bool) : Resolved :=
  if adjust_nonce then
    match a.txCount with
    | Except.error e => Resolved.err e
    | Except.ok num_transactions =>
      match nonce_calc num_transactions attempts with
      | none => Resolved.panicked [Ev.query num_transactions]
      | some new_nonce =>
        Resolved.ok { transaction with nonce := some new_nonce }
          [Ev.query num_transactions]
  else Resolved.ok transaction []

/-- Lines 36-83, the while loop of handle_transaction.  The loop condition
attempts < MAX_RETRIES is translated to structural recursion on the fuel
remaining = MAX_RETRIES - attempts: every call site maintains that
invariant, fuel 0 is exactly the loop exit (line 83, returning ok), and the
attempts counter is still passed explicitly because the nonce formula and
the backoff use it.  The dead guard of line 58 (attempts < MAX_RETRIES,
always true inside the loop) is kept verbatim, so the giving-up branch of
lines 76-79 remains in the model exactly as unreachable as in the
source. -/
def handle_go (env : Nat → AttemptEnv) (transaction : TransactionRequest) :
    Nat → Nat → Bool → HtOutcome × List Ev
  | 0, _, _ => (HtOutcome.ok, [])
  | remaining + 1, attempts, adjust_nonce =>
    match resolve_tx (env attempts) transaction attempts adjust_nonce with
    | Resolved.err e => (HtOutcome.err e, [])
    | Resolved.panicked evs => (HtOutcome.panicked, evs)
    | Resolved.ok transaction2 evs =>
      match try_send_transaction (env attempts).sendEnv transaction2 with
      | (Except.ok _, sevs) => (HtOutcome.ok, evs ++ sevs)
      | (Except.error e, sevs) =>
        if attempts < MAX_RETRIES then
          let adjust2 := if errIndicatesAlreadyKnown e then true else adjust_nonce
          let next := handle_go env transaction remaining (attempts + 1) adjust2
          (next.fst, evs ++ sevs ++ Ev.sleep (retry_backoff attempts) :: next.snd)
        else
          (HtOutcome.err e, evs ++ sevs)

/-- Lines 32-84: handle_transaction starts with attempts = 0 and
adjust_nonce = false, so the fuel is MAX_RETRIES. -/
def handle_transaction (env : Nat → AttemptEnv)
    (transaction : TransactionRequest) : HtOutcome × List Ev :=
  handle_go env transaction MAX_RETRIES 0 false

/-- A request with no caller-set nonce or gas, used in concrete runs. -/
def tx0 : TransactionRequest := {}

/-- A concrete receipt for successful confirmation runs. -/
def receipt1 : Receipt := { block_number := some 1, block_hash := some 2 }

/-- Oracle where every submission fails with an error that is not
classified already-known; estimates succeed with 100. -/
def c1Env : Nat → AttemptEnv := fun _ =>
  { txCount := Except.ok 0,
    sendEnv := { estimate := Except.ok 100,
                 send := Except.error "boom",
                 confirm := Except.ok none } }

/-- Oracle where the first attempt is accepted but its confirmation wait
fails with a transport error, and the second attempt fully succeeds. -/
def c2Env : Nat → AttemptEnv := fun k =>
  if k = 0 then
    { txCount := Except.ok 0,
      sendEnv := { estimate := Except.ok 100,
                   send := Except.ok (),
                   confirm := Except.error "connection reset while polling" } }
  else
    { txCount := Except.ok 0,
      sendEnv := { estimate := Except.ok 100,
                   send := Except.ok (),
                   confirm := Except.ok (some receipt1) } }

/-- Oracle whose nonce query returns 5 and whose estimate returns 100. -/
def c3Env : Nat → AttemptEnv := fun _ =>
  { txCount := Except.ok 5,
    sendEnv := { estimate := Except.ok 100,
                 send := Except.error "x",
                 confirm := Except.ok none } }

/-- Oracle whose submissions are rejected as already known. -/
def c5Env : Nat → AttemptEnv := fun _ =>
  { txCount := Except.ok 0,
    sendEnv := { estimate := Except.ok 100,
                 send := Except.error "already known",
                 confirm := Except.ok none } }

/-- Oracle whose submissions fail with a generic error. -/
def c6Env : Nat → AttemptEnv := fun _ =>
  { txCount := Except.ok 0,
    sendEnv := { estimate := Except.ok 100,
                 send := Except.error "boom",
                 confirm := Except.ok none } }

/-- Oracle where everything succeeds on the first attempt. -/
def c7Env : Nat → AttemptEnv := fun _ =>
  { txCount := Except.ok 0,
    sendEnv := { estimate := Except.ok 100,
                 send := Except.ok (),
                 confirm := Except.ok (some receipt1) } }

/-- Oracle whose first submission is rejected as already known and whose
nonce query then returns 0. -/
def c8Env : Nat → AttemptEnv := fun _ =>
  { txCount := Except.ok 0,
    sendEnv := { estimate := Except.ok 100,
                 send := Except.error "already known",
                 confirm := Except.ok none } }

/-- Send oracle whose fee estimate is so large that multiplying it by 110
overflows 256 bits. -/
def c9Env : SendEnv :=
  { estimate := Except.ok (2 ^ 250),
    send := Except.ok (),
    confirm := Except.ok none }

/-- Send oracle whose estimate is the largest U256 value. -/
def c4BigEnv : SendEnv :=
  { estimate := Except.ok (U256_MOD - 1),
    send := Except.ok (),
    confirm := Except.ok none }

/-- Send oracle where the confirmation wait succeeds with no receipt (the
pending transaction was dropped). -/
def c10Env : SendEnv :=
  { estimate := Except.ok 100,
    send := Except.ok (),
    confirm := Except.ok none }

/-- Attempt oracle wrapping c10Env. -/
def c10EnvH : Nat → AttemptEnv := fun _ =>
  { txCount := Except.ok 0, sendEnv := c10Env }

/-- Helper: a Bool-valued conditional returning the two constants is the
condition itself. -/
theorem bool_ite_id (b : Bool) : (if b then true else false) = b := by
  cases b <;> rfl

/-- Helper: when the product fits in 256 bits, the inflation is exact
integer arithmetic. -/
theorem increased_gas_spec (e : Nat) (h : e * 110 < U256_MOD) :
    increased_gas e = e * 110 / 100 := by
  unfold increased_gas checked_mul checked_div
  rw [if_pos h]
  simp

/-- Helper: when the product overflows 256 bits, checked_mul yields none
and unwrap_or_default turns the gas into zero. -/
theorem increased_gas_overflow (e : Nat) (h : U256_MOD ≤ e * 110) :
    increased_gas e = 0 := by
  unfold increased_gas checked_mul checked_div
  have h2 : ¬ e * 110 < U256_MOD := by omega
  simp [h2]

/-- Helper: whenever the estimate succeeds, exactly one send_transaction
call is made, with the inflated gas and the request's nonce, whatever the
submission and confirmation outcomes. -/
theorem try_send_trace_eq (env : SendEnv) (transaction : TransactionRequest)
    (g : Nat) (hg : env.estimate = Except.ok g) :
    (try_send_transaction env transaction).snd =
      [Ev.send transaction.nonce (increased_gas g)] := by
  unfold try_send_transaction
  rw [hg]
  cases hs : env.send with
  | error e => rfl
  | ok u =>
    cases hc : confirmed_receipt env.confirm with
    | error e => rfl
    | ok r => rfl

/-- Helper: estimate ok, send ok and confirmation wait ok give a successful
try_send_transaction with one send event. -/
theorem try_send_success (env : SendEnv) (transaction : TransactionRequest)
    (g : Nat) (rc : Option Receipt)
    (hg : env.estimate = Except.ok g)
    (hs : env.send = Except.ok ())
    (hc : env.confirm = Except.ok rc) :
    try_send_transaction env transaction =
      (Except.ok (), [Ev.send transaction.nonce (increased_gas g)]) := by
  unfold try_send_transaction confirmed_receipt
  rw [hg, hs, hc]

/-- Helper: a successful first try_send_transaction makes
handle_transaction return ok with exactly that attempt's trace. -/
theorem handle_success_step (env : Nat → AttemptEnv)
    (transaction : TransactionRequest) (evs : List Ev)
    (hsend : try_send_transaction (env 0).sendEnv transaction =
      (Except.ok (), evs)) :
    handle_transaction env transaction = (HtOutcome.ok, evs) := by
  show handle_go env transaction 2 0 false = _
  simp only [handle_go, resolve_tx, Bool.false_eq_true, if_false, hsend,
    List.nil_append]

/-- Claim C1: with a network client whose every submission fails with a
non-already-known error, handle_transaction performs exactly MAX_RETRIES
submission attempts (two send events in the trace, never more), but it then
returns ok, not the final error: the guard at line 58 is always true inside
the loop, so the giving-up branch of lines 76-79 is unreachable and the
loop exits at line 83 with Ok(()).  This evaluation run exhibits the
divergence from the claim. -/
theorem retries_exhausted_returns_ok_eval :
    handle_transaction c1Env tx0 =
      (HtOutcome.ok,
       [Ev.send none 110, Ev.sleep 5, Ev.send none 110, Ev.sleep 10]) := by
  rfl

/-- Claim C2, counterexample: first submission accepted, confirmation wait
fails with a transport error; the run does not surface that error (the
result is ok) and a second send event occurs, contradicting the claim that
the confirmation error is surfaced immediately with no further submission
attempt. -/
theorem confirmation_error_retries_counterexample :
    handle_transaction c2Env tx0 =
      (HtOutcome.ok,
       [Ev.send none 110, Ev.sleep 5, Ev.send none 110]) := by
  rfl

/-- Claim C2, amended: when a submission is accepted but the confirmation
wait fails, try_send_transaction propagates that error and handle_transaction
treats it like any other failed attempt: while attempts remain it sleeps for
the backoff and retries, so a further submission attempt follows instead of
the error being surfaced immediately. -/
theorem confirmation_error_treated_as_retryable
    (env : Nat → AttemptEnv) (transaction tx2 : TransactionRequest)
    (r k : Nat) (b : Bool) (g : Nat) (e : String) (qevs : List Ev)
    (hres : resolve_tx (env k) transaction k b = Resolved.ok tx2 qevs)
    (hg : (env k).sendEnv.estimate = Except.ok g)
    (hs : (env k).sendEnv.send = Except.ok ())
    (hc : (env k).sendEnv.confirm = Except.error e)
    (hk : k < MAX_RETRIES) :
    handle_go env transaction (r + 1) k b =
      ((handle_go env transaction r (k + 1)
          (if errIndicatesAlreadyKnown e then true else b)).fst,
       qevs ++ Ev.send tx2.nonce (increased_gas g) ::
         Ev.sleep (retry_backoff k) ::
           (handle_go env transaction r (k + 1)
             (if errIndicatesAlreadyKnown e then true else b)).snd) := by
  have hsend : try_send_transaction (env k).sendEnv tx2 =
      (Except.error e, [Ev.send tx2.nonce (increased_gas g)]) := by
    unfold try_send_transaction confirmed_receipt
    rw [hg, hs, hc]
  simp only [handle_go, hres, hsend, if_pos hk]
  simp

/-- Claim C2, witness for the amended theorem at the concrete oracle
c2Env. -/
theorem confirmation_error_treated_as_retryable_witness :
    handle_go c2Env tx0 2 0 false =
      ((handle_go c2Env tx0 1 1
          (if errIndicatesAlreadyKnown "connection reset while polling"
           then true else false)).fst,
       [] ++ Ev.send tx0.nonce (increased_gas 100) ::
         Ev.sleep (retry_backoff 0) ::
           (handle_go c2Env tx0 1 1
             (if errIndicatesAlreadyKnown "connection reset while polling"
              then true else false)).snd) :=
  confirmation_error_treated_as_retryable c2Env tx0 tx0 1 0 false 100
    "connection reset while polling" [] rfl rfl rfl rfl (by decide)

/-- Claim C4, counterexample: the claim quantifies over every estimate, but
for the estimate 2^256 - 1 the product with 110 overflows 256 bits, so the
code submits gas 0 while the claimed value of the exact integer expression
is nonzero. -/
theorem fee_inflation_overflow_counterexample :
    increased_gas (U256_MOD - 1) = 0 ∧
    (U256_MOD - 1) * 110 / 100 ≠ 0 ∧
    (try_send_transaction c4BigEnv tx0).snd = [Ev.send none 0] := by
  refine ⟨by rfl, by decide, by rfl⟩

/-- Claim C4, amended: for every estimate e whose product with 110 fits in
256 bits, the submitted gas is exactly e * 110 / 100 with truncation toward
zero; an estimate of 100 yields 110 and an estimate of 7 yields 7, and the
send event of any attempt with such an estimate carries exactly that
gas. -/
theorem fee_inflation_margin (e : Nat) (h : e * 110 < U256_MOD) :
    increased_gas e = e * 110 / 100 ∧
    increased_gas 100 = 110 ∧
    increased_gas 7 = 7 ∧
    ∀ env : SendEnv, ∀ transaction : TransactionRequest,
      env.estimate = Except.ok e →
      (try_send_transaction env transaction).snd =
        [Ev.send transaction.nonce (e * 110 / 100)] := by
  refine ⟨increased_gas_spec e h, by decide, by decide, ?_⟩
  intro env transaction hest
  rw [try_send_trace_eq env transaction e hest, increased_gas_spec e h]

/-- Claim C4, witness for the amended theorem at estimate 100. -/
theorem fee_inflation_margin_witness :
    100 * 110 < U256_MOD ∧
    increased_gas 100 = 100 * 110 / 100 ∧
    increased_gas 100 = 110 ∧
    increased_gas 7 = 7 :=
  ⟨by decide, (fee_inflation_margin 100 (by decide)).1,
   (fee_inflation_margin 100 (by decide)).2.1,
   (fee_inflation_margin 100 (by decide)).2.2.1⟩

/-- Claim C9: when e * 110 fits in 256 bits the submitted gas is exactly
e * 110 / 100; when it overflows, checked_mul yields none and
unwrap_or_default silently makes the gas 0 — the transaction is still sent
(the send event occurs, with gas 0) and no error is raised by the gas
computation (with accepted submission and confirmation the attempt
succeeds). -/
theorem checked_mul_overflow_gas_zero (e big : Nat)
    (h : e * 110 < U256_MOD)
    (hbig : U256_MOD ≤ big * 110) :
    increased_gas e = e * 110 / 100 ∧
    increased_gas big = 0 ∧
    ∀ env : SendEnv, ∀ transaction : TransactionRequest,
      env.estimate = Except.ok big →
      (try_send_transaction env transaction).snd =
        [Ev.send transaction.nonce 0] ∧
      (env.send = Except.ok () → ∀ rc, env.confirm = Except.ok rc →
        (try_send_transaction env transaction).fst = Except.ok ()) := by
  refine ⟨increased_gas_spec e h, increased_gas_overflow big hbig, ?_⟩
  intro env transaction hest
  constructor
  · rw [try_send_trace_eq env transaction big hest,
      increased_gas_overflow big hbig]
  · intro hs rc hc
    rw [try_send_success env transaction big rc hest hs hc]

/-- Claim C9, witness at estimates 100 and 2^250. -/
theorem checked_mul_overflow_gas_zero_witness :
    increased_gas 100 = 100 * 110 / 100 ∧
    increased_gas (2 ^ 250) = 0 ∧
    (try_send_transaction c9Env tx0).snd = [Ev.send tx0.nonce 0] :=
  ⟨(checked_mul_overflow_gas_zero 100 (2 ^ 250) (by decide) (by decide)).1,
   (checked_mul_overflow_gas_zero 100 (2 ^ 250) (by decide) (by decide)).2.1,
   ((checked_mul_overflow_gas_zero 100 (2 ^ 250) (by decide)
      (by decide)).2.2 c9Env tx0 rfl).1⟩

/-- Claim C3: on an attempt whose nonce-correction flag is set, the chain
transaction count N is queried and the attempt submits with nonce
N + attempts - 2 (whenever the U256 arithmetic does not abort): the trace
of that attempt starts with the query event followed by a send event
carrying exactly that nonce. -/
theorem nonce_correction_formula
    (env : Nat → AttemptEnv) (transaction : TransactionRequest)
    (r k N g : Nat)
    (hN : (env k).txCount = Except.ok N)
    (h2 : 2 ≤ N + k) (hlt : N + k < U256_MOD)
    (hg : (env k).sendEnv.estimate = Except.ok g) :
    (handle_go env transaction (r + 1) k true).snd.take 2 =
      [Ev.query N, Ev.send (some (N + k - 2)) (increased_gas g)] := by
  have hres : resolve_tx (env k) transaction k true =
      Resolved.ok { transaction with nonce := some (N + k - 2) }
        [Ev.query N] := by
    unfold resolve_tx nonce_calc u256_add u256_sub
    rw [hN]
    simp [hlt, h2]
  cases hts : try_send_transaction (env k).sendEnv
      { transaction with nonce := some (N + k - 2) } with
  | mk res sevs =>
    have h3 := try_send_trace_eq (env k).sendEnv
      { transaction with nonce := some (N + k - 2) } g hg
    rw [hts] at h3
    have hsevs : sevs = [Ev.send (some (N + k - 2)) (increased_gas g)] := by
      simpa using h3
    cases res with
    | ok u =>
      simp only [handle_go, hres, hts]
      simp [hsevs]
    | error e =>
      simp only [handle_go, hres, hts]
      split
      · simp [hsevs]
      · simp [hsevs]

/-- Claim C3, witness: attempt index 1 with chain count 5 submits with
nonce 4. -/
theorem nonce_correction_formula_witness :
    (handle_go c3Env tx0 1 1 true).snd.take 2 =
      [Ev.query 5, Ev.send (some 4) (increased_gas 100)] :=
  nonce_correction_formula c3Env tx0 0 1 5 100 rfl (by decide) (by decide)
    rfl

/-- Claim C5: on a failed attempt (started with the flag clear) the flag
passed to every later attempt equals errIndicatesAlreadyKnown of the error
text — set exactly when the text contains already known; the failed attempt
itself submitted the unadjusted request (the trace is exactly that of
try_send_transaction on the original request), and with attempts remaining
the retry re-resolves from the same original request, so a non-already-known
error retries with an identical nonce. -/
theorem already_known_sets_adjust_flag
    (env : Nat → AttemptEnv) (transaction : TransactionRequest)
    (r k : Nat) (e : String) (evs : List Ev)
    (hk : k < MAX_RETRIES)
    (hsend : try_send_transaction (env k).sendEnv transaction =
      (Except.error e, evs)) :
    handle_go env transaction (r + 1) k false =
      ((handle_go env transaction r (k + 1)
          (errIndicatesAlreadyKnown e)).fst,
       evs ++ Ev.sleep (retry_backoff k) ::
         (handle_go env transaction r (k + 1)
           (errIndicatesAlreadyKnown e)).snd) := by
  simp only [handle_go, resolve_tx, Bool.false_eq_true, if_false, hsend,
    if_pos hk, bool_ite_id]
  simp

/-- Claim C5, witness: an already-known rejection on attempt 0 makes the
next attempt run with the flag set. -/
theorem already_known_sets_adjust_flag_witness :
    handle_go c5Env tx0 2 0 false =
      ((handle_go c5Env tx0 1 1
          (errIndicatesAlreadyKnown "already known")).fst,
       [Ev.send none 110] ++ Ev.sleep (retry_backoff 0) ::
         (handle_go c5Env tx0 1 1
           (errIndicatesAlreadyKnown "already known")).snd) :=
  already_known_sets_adjust_flag c5Env tx0 1 0 "already known"
    [Ev.send none 110] (by decide) rfl

/-- Claim C6: when an attempt with index k fails with attempts remaining,
the trace continues with a sleep of retry_backoff k seconds before the next
attempt's events; retry_backoff k is RETRY_DELAY * (k + 1) and is strictly
increasing in the attempt index. -/
theorem backoff_delay_linear
    (env : Nat → AttemptEnv) (transaction tx2 : TransactionRequest)
    (r k : Nat) (b : Bool) (e : String) (qevs evs : List Ev)
    (hk : k < MAX_RETRIES)
    (hres : resolve_tx (env k) transaction k b = Resolved.ok tx2 qevs)
    (hsend : try_send_transaction (env k).sendEnv tx2 =
      (Except.error e, evs)) :
    (handle_go env transaction (r + 1) k b).snd =
      qevs ++ evs ++ Ev.sleep (retry_backoff k) ::
        (handle_go env transaction r (k + 1)
          (if errIndicatesAlreadyKnown e then true else b)).snd ∧
    retry_backoff k = RETRY_DELAY_SECS * (k + 1) ∧
    ∀ j1 j2 : Nat, j1 < j2 → retry_backoff j1 < retry_backoff j2 := by
  refine ⟨?_, rfl, ?_⟩
  · simp only [handle_go, hres, hsend, if_pos hk]
  · intro j1 j2 hj
    unfold retry_backoff RETRY_DELAY_SECS
    omega

/-- Claim C6, witness: the delay slept after the failed attempt 0 is
retry_backoff 0 = 5 seconds. -/
theorem backoff_delay_linear_witness :
    (handle_go c6Env tx0 2 0 false).snd =
      [] ++ [Ev.send none 110] ++ Ev.sleep (retry_backoff 0) ::
        (handle_go c6Env tx0 1 1
          (if errIndicatesAlreadyKnown "boom" then true else false)).snd ∧
    retry_backoff 0 = RETRY_DELAY_SECS * (0 + 1) :=
  ⟨(backoff_delay_linear c6Env tx0 tx0 1 0 false "boom" [] [Ev.send none 110]
      (by decide) rfl rfl).1,
   (backoff_delay_linear c6Env tx0 tx0 1 0 false "boom" [] [Ev.send none 110]
      (by decide) rfl rfl).2.1⟩

/-- Claim C7: when the first submission is accepted and its confirmation
wait succeeds, handle_transaction returns ok and the whole trace is a
single send event: one attempt, no nonce query, no sleep, no second
submission. -/
theorem first_attempt_success_single_attempt
    (env : Nat → AttemptEnv) (transaction : TransactionRequest)
    (g : Nat) (rc : Option Receipt)
    (hg : (env 0).sendEnv.estimate = Except.ok g)
    (hs : (env 0).sendEnv.send = Except.ok ())
    (hc : (env 0).sendEnv.confirm = Except.ok rc) :
    handle_transaction env transaction =
      (HtOutcome.ok, [Ev.send transaction.nonce (increased_gas g)]) :=
  handle_success_step env transaction
    [Ev.send transaction.nonce (increased_gas g)]
    (try_send_success (env 0).sendEnv transaction g rc hg hs hc)

/-- Claim C7, witness at a fully successful concrete oracle. -/
theorem first_attempt_success_single_attempt_witness :
    handle_transaction c7Env tx0 =
      (HtOutcome.ok, [Ev.send tx0.nonce (increased_gas 100)]) :=
  first_attempt_success_single_attempt c7Env tx0 100 (some receipt1)
    rfl rfl rfl

/-- Claim C8: when the nonce-correction branch runs with a queried count N
and attempt counter k with N + k < 2, the U256 expression
num_transactions + attempts - 2 underflows and the iteration aborts with a
panic instead of producing a nonce or an error value. -/
theorem nonce_correction_underflow_panics
    (env : Nat → AttemptEnv) (transaction : TransactionRequest)
    (r k N : Nat)
    (hN : (env k).txCount = Except.ok N)
    (hsum : N + k < 2) :
    handle_go env transaction (r + 1) k true =
      (HtOutcome.panicked, [Ev.query N]) := by
  have hres : resolve_tx (env k) transaction k true =
      Resolved.panicked [Ev.query N] := by
    unfold resolve_tx nonce_calc u256_add u256_sub
    rw [hN]
    have h1 : N + k < U256_MOD := by
      have h0 : (2 : Nat) ≤ U256_MOD := by decide
      omega
    have h2 : ¬ 2 ≤ N + k := by omega
    simp [h1, h2]
  simp only [handle_go, hres]

/-- Claim C8, witness: chain count 0 on the second attempt (counter 1)
panics. -/
theorem nonce_correction_underflow_panics_witness :
    handle_go c8Env tx0 1 1 true = (HtOutcome.panicked, [Ev.query 0]) :=
  nonce_correction_underflow_panics c8Env tx0 0 1 0 rfl (by decide)

/-- Claim C10: a confirmation wait that resolves with no receipt (the
pending transaction was dropped) is replaced by the default receipt by
unwrap_or_default, try_send_transaction succeeds, and handle_transaction
returns ok rather than reporting any failure. -/
theorem dropped_receipt_defaults_to_success
    (env : SendEnv) (transaction : TransactionRequest) (g : Nat)
    (hg : env.estimate = Except.ok g)
    (hs : env.send = Except.ok ())
    (hc : env.confirm = Except.ok none) :
    confirmed_receipt env.confirm = Except.ok defaultReceipt ∧
    try_send_transaction env transaction =
      (Except.ok (), [Ev.send transaction.nonce (increased_gas g)]) ∧
    ∀ envH : Nat → AttemptEnv, (envH 0).sendEnv = env →
      handle_transaction envH transaction =
        (HtOutcome.ok, [Ev.send transaction.nonce (increased_gas g)]) := by
  refine ⟨?_, try_send_success env transaction g none hg hs hc, ?_⟩
  · rw [hc]; rfl
  · intro envH hH
    exact handle_success_step envH transaction _
      (by rw [hH]; exact try_send_success env transaction g none hg hs hc)

/-- Claim C10, witness at the concrete dropped-transaction oracle. -/
theorem dropped_receipt_defaults_to_success_witness :
    confirmed_receipt c10Env.confirm = Except.ok defaultReceipt ∧
    try_send_transaction c10Env tx0 =
      (Except.ok (), [Ev.send tx0.nonce (increased_gas 100)]) ∧
    handle_transaction c10EnvH tx0 =
      (HtOutcome.ok, [Ev.send tx0.nonce (increased_gas 100)]) :=
  ⟨(dropped_receipt_defaults_to_success c10Env tx0 100 rfl rfl rfl).1,
   (dropped_receipt_defaults_to_success c10Env tx0 100 rfl rfl rfl).2.1,
   (dropped_receipt_defaults_to_success c10Env tx0 100 rfl rfl rfl).2.2
     c10EnvH rfl⟩

end TxManager
